import Mathlib

set_option maxRecDepth 100000

/-!
Shallow embedding of the therabot backend (src/backend/safety.py,
memory.py, therapist.py, main.py) and proofs of the specification claims.

Conventions of the embedding:
* Python strings are Lean `String`s; `sub in s` is `pyIn sub s`
  (substring test); `str.lower()` / `str.upper()` are `pyLower` / `pyUpper`
  (character-wise, ASCII letters — all cased characters in the repository's
  keyword tables are ASCII, Arabic text is caseless).
* `datetime.now()` is threaded explicitly as a `Nat` timestamp (seconds).
* `uuid.uuid4()` is modelled as a fresh-id counter carried by the store.
* Python floats are `ℚ` (every constant involved is decimal).
* `random.choice` / `random.choices` outcomes are oracle parameters.
-/

namespace Therabot

/-- Python `needle in haystack` on character lists: `needle` occurs as a
contiguous substring of `haystack`. -/
def strIn (needle : List Char) : List Char → Bool
  | [] => needle.isEmpty
  | c :: rest => needle.isPrefixOf (c :: rest) || strIn needle rest

/-- Python `needle in haystack` for strings. -/
def pyIn (needle haystack : String) : Bool :=
  strIn needle.data haystack.data

/-- Python `s.lower()` (character-wise; ASCII range, see module docstring). -/
def pyLower (s : String) : String :=
  ⟨s.data.map Char.toLower⟩

/-- Python `s.upper()` (character-wise; ASCII range). -/
def pyUpper (s : String) : String :=
  ⟨s.data.map Char.toUpper⟩

/-- Python `str.isspace` for the ASCII whitespace characters relevant to
`str.split()`. -/
def pyIsSpace (c : Char) : Bool :=
  c = ' ' || c = '\t' || c = '\n' || c = '\r' || c = '\x0b' || c = '\x0c'

/-- Number of maximal non-whitespace runs of a character list; the flag
records whether the previous character was part of a word. -/
def wordCountAux : List Char → Bool → Nat
  | [], _ => 0
  | c :: rest, inWord =>
    if pyIsSpace c then wordCountAux rest false
    else (if inWord then 0 else 1) + wordCountAux rest true

/-- Python `len(s.split())`: number of maximal non-whitespace runs. -/
def pyWordCount (s : String) : Nat :=
  wordCountAux s.data false

/-- `dict.fromkeys` de-duplication: keep the first occurrence of each
element, preserving first-seen order. -/
def dedupFirst : List String → List String
  | [] => []
  | a :: l => a :: dedupFirst (l.filter (fun b => b ≠ a))
termination_by l => l.length
decreasing_by
  exact Nat.lt_succ_of_le (List.length_filter_le _ _)

/-! ## safety.py -/

/-- `SafetyLevel` enum (safety.py lines 22-26). -/
inductive SafetyLevel where
  | SAFE
  | WARNING
  | DANGER
  | CRISIS
deriving DecidableEq, Repr

/-- The `.value` string of a `SafetyLevel` member. -/
def SafetyLevel.value : SafetyLevel → String
  | .SAFE => "safe"
  | .WARNING => "warning"
  | .DANGER => "danger"
  | .CRISIS => "crisis"

/-- `SafetyChecker.crisis_keywords` (safety.py lines 54-72), in declaration
order. -/
def crisis_keywords : List (String × List String) :=
  [("suicide",
    ["انتحار", "أقتل نفسي", "أريد أن أموت", "نهاية حياتي",
     "suicide", "kill myself", "want to die", "end my life",
     "لا أريد العيش", "better off dead", "لا فائدة من الحياة"]),
   ("self_harm",
    ["أجرح نفسي", "أؤذي نفسي", "قطع", "حرق", "self-harm",
     "cut myself", "hurt myself", "bleeding intentionally"]),
   ("abuse",
    ["اعتداء", "عنف منزلي", "ضرب", "تحرش", "إساءة",
     "abuse", "domestic violence", "beating", "harassment"]),
   ("emergency_health",
    ["نوبة قلبية", "سكتة دماغية", "توقف تنفس", "جرح نازف",
     "heart attack", "stroke", "can't breathe", "bleeding severely"])]

/-- `SafetyChecker.warning_patterns` (safety.py lines 75-88). -/
def warning_patterns : List (String × List String) :=
  [("depression",
    ["مكتئب", "حزين جدا", "لا معنى للحياة", "يأس",
     "depressed", "very sad", "no meaning", "hopeless"]),
   ("anxiety",
    ["قلق شديد", "نوبة هلع", "خوف", "رهاب",
     "severe anxiety", "panic attack", "terrified", "phobia"]),
   ("addiction",
    ["إدمان", "مخدرات", "كحول", "لا أستطيع التوقف",
     "addiction", "drugs", "alcohol", "can't stop"])]

/-- `keyword.lower() in message.lower()` — the match test of the crisis and
warning passes (safety.py lines 164 and 191). -/
def containsKw (msg kw : String) : Bool :=
  pyIn (pyLower kw) (pyLower msg)

/-- The metadata computed by `SafetyChecker._additional_analysis`
(safety.py lines 217-236). -/
structure AnalysisMeta where
  message_length : Nat
  contains_questions : Bool
  contains_negation : Bool
  emotion_indicators : List String
  negative_word_count : Nat
  sentiment_score : ℚ
deriving DecidableEq, Repr

/-- `SafetyChecker._detect_emotion_indicators` (safety.py lines 238-256).
`isalpha`/`isupper` are the ASCII character classes. -/
def detect_emotion_indicators (msg : String) : List String :=
  let excl :=
    if pyIn "!!!" msg then ["high_intensity"]
    else if pyIn "!!" msg then ["medium_intensity"]
    else if pyIn "!" msg then ["low_intensity"]
    else []
  let caps :=
    if msg ≠ pyUpper msg ∧ msg.data.any (fun c => c.isAlpha && c.isUpper) then
      let upper := (msg.data.filter Char.isUpper).length
      let alpha := (msg.data.filter Char.isAlpha).length
      if (3 : ℚ) / 10 < (upper : ℚ) / (alpha : ℚ) then ["emotional_emphasis"]
      else []
    else []
  excl ++ caps

/-- Negation word list of `_additional_analysis` (safety.py line 222). -/
def negation_words : List String :=
  ["لا", "ليس", "لن", "never", "not", "no"]

/-- Arabic negative-sentiment words (safety.py line 227). -/
def negative_words_arabic : List String :=
  ["حزين", "تعيس", "يأس", "خوف", "قلق", "ألم", "معاناة"]

/-- English negative-sentiment words (safety.py line 228). -/
def negative_words_english : List String :=
  ["sad", "unhappy", "hopeless", "fear", "anxiety", "pain", "suffering"]

/-- `SafetyChecker._additional_analysis` (safety.py lines 217-236). -/
def additional_analysis (msg : String) : AnalysisMeta :=
  let negCount :=
    (negative_words_arabic.filter (fun w => pyIn w msg)).length
      + (negative_words_english.filter
          (fun w => pyIn (pyLower w) (pyLower msg))).length
  { message_length := msg.data.length
    contains_questions := pyIn "؟" msg || pyIn "?" msg
    contains_negation :=
      negation_words.any (fun w => pyIn w (pyLower msg))
    emotion_indicators := detect_emotion_indicators msg
    negative_word_count := negCount
    sentiment_score := -(negCount : ℚ) * (2 / 10) }

/-- The `metadata` dict of a `SafetyResult`: either the crisis dict
`{crisis_type, requires_immediate_action, legal_obligation}` (the two
constants are implied by the constructor) or the `_additional_analysis`
dict, which has no `crisis_type` key. -/
inductive SafetyMeta where
  | crisis (crisis_type : String)
  | analysis (a : AnalysisMeta)
deriving DecidableEq, Repr

/-- `SafetyResult` dataclass (safety.py lines 28-40). -/
structure SafetyResult where
  is_crisis : Bool
  level : SafetyLevel
  keywords : List String
  confidence : ℚ
  metadata : SafetyMeta
deriving DecidableEq, Repr

/-- The crisis pass of `SafetyChecker.analyze_message` (safety.py lines
158-170): scan categories in declaration order; inside a category stop at
the first matching keyword (the inner `break`); stop scanning further
categories once a category matched (the outer `break`). Returns the
matched category and the single keyword appended to `found_keywords`. -/
def findCrisis (msg : String) : List (String × List String) → Option (String × String)
  | [] => none
  | (cat, kws) :: rest =>
    match kws.find? (fun kw => containsKw msg kw) with
    | some kw => some (cat, kw)
    | none => findCrisis msg rest

/-- The warning pass of `analyze_message` (safety.py lines 186-193): every
pattern of every warning category that occurs in the message, in table
order; `warning_score` is the length of this list. -/
def warningHits (msg : String) : List String :=
  warning_patterns.flatMap (fun p => p.2.filter (fun pat => containsKw msg pat))

/-- `SafetyChecker.analyze_message` (safety.py lines 151-215). -/
def analyze_message (msg : String) : SafetyResult :=
  match findCrisis msg crisis_keywords with
  | some (crisis_type, kw) =>
    { is_crisis := true
      level := .CRISIS
      keywords := [kw]
      confidence := 95 / 100
      metadata := .crisis crisis_type }
  | none =>
    let hits := warningHits msg
    let score := hits.length
    let lvl : SafetyLevel :=
      if 3 ≤ score then .DANGER else if 1 ≤ score then .WARNING else .SAFE
    { is_crisis := false
      level := lvl
      keywords := hits
      confidence := min (9 / 10 : ℚ) ((score : ℚ) * (3 / 10))
      metadata := .analysis (additional_analysis msg) }

/-- `CrisisResponse` dataclass (safety.py lines 42-47). -/
structure CrisisResponse where
  message : String
  resources : List String
  emergency_contacts : Option (List String)
  immediate_actions : Option (List String)
deriving DecidableEq, Repr

/-- `SafetyChecker.crisis_resources` (safety.py lines 91-142):
category → (message, resources). -/
def crisis_resources : List (String × (String × List String)) :=
  [("suicide",
    ("🚨 أدرك أنك تمر بوقت صعب جداً. الرجاء التواصل فوراً مع:\n\n📞 خط نجدة الطفل (المجلس القومي للطفولة والأمومة): 16000\n📞 مصلحة الطب النفسي (وزارة الصحة): 08008880700\n📞 مستشفى العباسية للصحة النفسية: 0226336255\n\n📍 الذهاب لأقرب مستشفى حكومي أو قسم طوارئ نفسية\n📍 التحدث مع صديق مقرب أو فرد عائلة الآن",
     ["المجلس القومي للطفولة والأمومة: 16000",
      "مصلحة الطب النفسي: 08008880700",
      "مستشفى العباسية: 0226336255",
      "الخط الساخن للصحة النفسية: 0220816831"])),
   ("self_harm",
    ("⚠️ إيذاء النفس هو علامة على معاناة عميقة. دعنا نطلب المساعدة معاً:\n\n📞 مستشفى المعمورة للصحة النفسية (الإسكندرية): 034287000\n📞 مستشفى 57357 (دعم نفسي للأطفال): 0225357000\n📞 جمعية أصدقاء الصحة النفسية: 0227910885\n\n💡 اقتراحات فورية:\n• احتفظ بأدوات حادة بعيداً عن متناول اليد\n• اتصل بصديق أو قريب الآن\n• اذهب للمشي في مكان آمن",
     ["مستشفى المعمورة: 034287000",
      "مستشفى 57357: 0225357000",
      "جمعية أصدقاء الصحة النفسية: 0227910885"])),
   ("abuse",
    ("🛡️ العنف والاعتداء غير مقبولين. المساعدة متاحة:\n\n📞 المجلس القومي للمرأة: 15115\n📞 وحدة مكافحة العنف ضد المرأة: 01148933222\n📞 نجدة المرأة: ٠٨٨٨٨٨٨٨٨ (مركز المرأة بالقاهرة)\n\n🚨 إذا كنت في خطر مباشر:\n• اتصل بالشرطة: 122\n• اذهب لجار أو مكان عام آمن\n• احتفظ بأدلة إذا أمكن",
     ["المجلس القومي للمرأة: 15115",
      "وحدة مكافحة العنف: 01148933222",
      "الشرطة: 122"]))]

/-- The default crisis response (safety.py lines 271-286). -/
def default_crisis_response : CrisisResponse :=
  { message := "🚨 يبدو أنك تمر بأزمة. الرجاء التواصل فوراً مع:\n\n📞 الخط الساخن للصحة النفسية: 0220816831\n📞 الإسعاف: 123\n📞 الشرطة: 122\n\n• لا تبق وحيداً في هذه اللحظة\n• اذهب إلى مكان عام أو اتصل بصديق\n• تذكر أن هذه المشاعر مؤقتة والمساعدة متاحة"
    resources :=
      ["الخط الساخن للصحة النفسية: 0220816831",
       "الإسعاف: 123",
       "الشرطة: 122"]
    emergency_contacts := none
    immediate_actions := none }

/-- `SafetyChecker.get_crisis_response` (safety.py lines 258-286):
`crisis_type = metadata.get("crisis_type", "suicide")`, then table lookup
with the default response as fallback. -/
def get_crisis_response (r : SafetyResult) : CrisisResponse :=
  let crisis_type :=
    match r.metadata with
    | .crisis ct => ct
    | .analysis _ => "suicide"
  match crisis_resources.lookup crisis_type with
  | some info =>
    { message := info.1
      resources := info.2
      emergency_contacts := some ["122", "123", "180"]
      immediate_actions := none }
  | none => default_crisis_response

/-! ## memory.py -/

/-- `MessageRole` enum (memory.py lines 12-15). -/
inductive MessageRole where
  | user
  | assistant
  | system
deriving DecidableEq, Repr

/-- Metadata of a stored chat message: the `SafetyResult.metadata` dict for
user messages, the tag dicts `{"crisis_response": True}` /
`{"therapy_response": True}` for assistant messages, or `{}` when
`safety_metadata` is `None`. -/
inductive MsgMeta where
  | safety (m : SafetyMeta)
  | crisisResponse
  | therapyResponse
  | empty
deriving DecidableEq, Repr

/-- `ChatMessage` dataclass (memory.py lines 17-45); `id` is the fresh-id
counter value standing for `uuid.uuid4()`. -/
structure ChatMessage where
  id : Nat
  session_id : String
  role : MessageRole
  content : String
  timestamp : Nat
  metadata : MsgMeta
deriving DecidableEq, Repr

/-- The default settings dict of a new session (memory.py lines 108-113). -/
structure SessionSettings where
  language : String
  therapy_style : String
  safety_level : String
  privacy_mode : Bool
deriving DecidableEq, Repr

def default_settings : SessionSettings :=
  { language := "ar", therapy_style := "supportive",
    safety_level := "standard", privacy_mode := true }

/-- `UserSession` dataclass (memory.py lines 47-68). -/
structure UserSession where
  session_id : String
  user_id : Option String
  created_at : Nat
  last_active : Nat
  message_count : Nat
  settings : SessionSettings
deriving DecidableEq, Repr

/-- Dict `m.pop(k, None)` on an association list: remove the key's entry. -/
def delAssoc {α : Type} (m : List (String × α)) (k : String) :
    List (String × α) :=
  match m with
  | [] => []
  | (k', v') :: rest =>
    if k' = k then delAssoc rest k else (k', v') :: delAssoc rest k

/-- Dict assignment `m[k] = v` on an association list: replace in place,
or append when the key is new. -/
def updAssoc {α : Type} (m : List (String × α)) (k : String) (v : α) :
    List (String × α) :=
  match m with
  | [] => [(k, v)]
  | (k', v') :: rest =>
    if k' = k then (k, v) :: rest else (k', v') :: updAssoc rest k v

/-- The session created by `get_or_create_session` for an unseen id
(memory.py lines 102-114). -/
def newSession (sid : String) (uid : Option String) (now : Nat) : UserSession :=
  { session_id := sid, user_id := uid, created_at := now,
    last_active := now, message_count := 0, settings := default_settings }

/-- The in-memory fallback store `_in_memory_store` (memory.py lines 90-93)
together with the fresh-id supply for `uuid.uuid4()`. -/
structure InMemStore where
  sessions : List (String × UserSession)
  messages : List (String × List ChatMessage)
  nextId : Nat
deriving DecidableEq, Repr

/-- `MemoryManager.get_session`, in-memory branch (memory.py line 136). -/
def inm_get_session (st : InMemStore) (sid : String) : Option UserSession :=
  st.sessions.lookup sid

/-- `MemoryManager._save_session`, in-memory branch (memory.py line 152). -/
def inm_save_session (st : InMemStore) (s : UserSession) : InMemStore :=
  { st with sessions := updAssoc st.sessions s.session_id s }

/-- `MemoryManager.get_or_create_session`, in-memory backend
(memory.py lines 95-117). -/
def inm_get_or_create_session (st : InMemStore) (sid : String)
    (uid : Option String) (now : Nat) : UserSession × InMemStore :=
  match inm_get_session st sid with
  | some s => (s, st)
  | none =>
    let s := newSession sid uid now
    (s, inm_save_session st s)

/-- `MemoryManager.store_message`, in-memory backend (memory.py lines
154-193): prepend the new message, trim to the first 100, then update the
owning session's activity if one exists. Returns the new message id. -/
def inm_store_message (st : InMemStore) (sid content : String)
    (is_user : Bool) (meta : MsgMeta) (now : Nat) : Nat × InMemStore :=
  let mid := st.nextId
  let m : ChatMessage :=
    { id := mid, session_id := sid,
      role := if is_user then .user else .assistant,
      content := content, timestamp := now, metadata := meta }
  let log := (m :: ((st.messages.lookup sid).getD [])).take 100
  let st1 : InMemStore :=
    { st with messages := updAssoc st.messages sid log, nextId := st.nextId + 1 }
  match inm_get_session st1 sid with
  | some s =>
    (mid, inm_save_session st1
      { s with last_active := now, message_count := s.message_count + 1 })
  | none => (mid, st1)

/-- The timestamp order used by `sorted(messages, key=lambda x:
x["timestamp"])` (memory.py line 217). -/
def tsLe (a b : ChatMessage) : Prop :=
  a.timestamp ≤ b.timestamp

instance : DecidableRel tsLe := fun a b => Nat.decLe a.timestamp b.timestamp

instance : IsTotal ChatMessage tsLe := ⟨fun a b => Nat.le_total a.timestamp b.timestamp⟩

instance : IsTrans ChatMessage tsLe := ⟨fun _ _ _ h1 h2 => Nat.le_trans h1 h2⟩

/-- Python's `sorted` by timestamp key: a stable sort, modelled by stable
insertion sort (extensionally equal to any stable sort on the same key). -/
def sortByTimestamp (l : List ChatMessage) : List ChatMessage :=
  l.insertionSort tsLe

/-- `MemoryManager.get_session_history`, in-memory backend (memory.py lines
195-217): first `limit` entries of the newest-first log, sorted ascending
by timestamp. -/
def inm_get_session_history (st : InMemStore) (sid : String) (limit : Nat) :
    List ChatMessage :=
  sortByTimestamp (((st.messages.lookup sid).getD []).take limit)

/-- `MemoryManager.delete_session`, in-memory backend (memory.py lines
228-243): `pop` both collections (never raising), then `return True`. -/
def inm_delete_session (st : InMemStore) (sid : String) : Bool × InMemStore :=
  (true,
   { st with
      sessions := delAssoc st.sessions sid,
      messages := delAssoc st.messages sid })

/-- `MemoryManager.update_session_activity`, in-memory backend (memory.py
lines 219-226). -/
def inm_update_session_activity (st : InMemStore) (sid : String) (now : Nat) :
    InMemStore :=
  match inm_get_session st sid with
  | some s => inm_save_session st { s with last_active := now }
  | none => st

/-- The 24-hour session TTL passed to `SETEX` (memory.py line 148),
in seconds. -/
def sessionTTL : Nat := 24 * 60 * 60

/-- The Redis backend as used by the code: session keys carry an absolute
expiry instant (set by `SETEX`), message-list keys have no TTL. -/
structure RedisStore where
  sessions : List (String × (UserSession × Nat))
  messages : List (String × List ChatMessage)
  nextId : Nat
deriving DecidableEq, Repr

/-- `MemoryManager.get_session`, Redis branch (memory.py lines 123-134):
`GET` returns nothing once the key's TTL has elapsed. -/
def redis_get_session (st : RedisStore) (sid : String) (now : Nat) :
    Option UserSession :=
  match st.sessions.lookup sid with
  | some (s, expiresAt) => if now < expiresAt then some s else none
  | none => none

/-- `MemoryManager._save_session`, Redis branch (memory.py lines 144-150):
`SETEX` with a 24-hour TTL. -/
def redis_save_session (st : RedisStore) (s : UserSession) (now : Nat) :
    RedisStore :=
  { st with sessions := updAssoc st.sessions s.session_id (s, now + sessionTTL) }

/-- `MemoryManager.get_or_create_session`, Redis backend. -/
def redis_get_or_create_session (st : RedisStore) (sid : String)
    (uid : Option String) (now : Nat) : UserSession × RedisStore :=
  match redis_get_session st sid now with
  | some s => (s, st)
  | none =>
    let s := newSession sid uid now
    (s, redis_save_session st s now)

/-- `MemoryManager.store_message`, Redis backend (memory.py lines 154-193):
`LPUSH` then `LTRIM 0 99`, then update the owning session if present. -/
def redis_store_message (st : RedisStore) (sid content : String)
    (is_user : Bool) (meta : MsgMeta) (now : Nat) : Nat × RedisStore :=
  let mid := st.nextId
  let m : ChatMessage :=
    { id := mid, session_id := sid,
      role := if is_user then .user else .assistant,
      content := content, timestamp := now, metadata := meta }
  let log := (m :: ((st.messages.lookup sid).getD [])).take 100
  let st1 : RedisStore :=
    { st with messages := updAssoc st.messages sid log, nextId := st.nextId + 1 }
  match redis_get_session st1 sid now with
  | some s =>
    (mid, redis_save_session st1
      { s with last_active := now, message_count := s.message_count + 1 } now)
  | none => (mid, st1)

/-- `MemoryManager.get_session_history`, Redis backend (memory.py lines
201-209 and 217): `LRANGE key 0 (limit-1)`. With `limit = 0` the Python
expression `limit - 1` is `-1`, and `LRANGE key 0 -1` returns the whole
list; with `limit ≥ 1` it returns the first `limit` entries. -/
def redis_get_session_history (st : RedisStore) (sid : String) (limit : Nat) :
    List ChatMessage :=
  let raw := (st.messages.lookup sid).getD []
  let window := if limit = 0 then raw else raw.take limit
  sortByTimestamp window

/-- `MemoryManager.delete_session`, Redis backend (memory.py lines
233-241): `DEL` both keys, then `return True`. -/
def redis_delete_session (st : RedisStore) (sid : String) : Bool × RedisStore :=
  (true,
   { st with
      sessions := delAssoc st.sessions sid,
      messages := delAssoc st.messages sid })

/-! ## therapist.py -/

/-- `TherapyStyle` enum (therapist.py lines 13-17). -/
inductive TherapyStyle where
  | supportive
  | cbt
  | solution_focused
  | mindfulness
deriving DecidableEq, Repr

/-- Outcomes of the two `random` draws in `_determine_therapy_style`:
`warnChoice` decides `random.choice([SUPPORTIVE, CBT])` and `safeChoice`
the weighted `random.choices` among the four styles. -/
structure RandOracle where
  warnChoice : Bool
  safeChoice : Fin 4
deriving DecidableEq, Repr

/-- `TherapistEngine._determine_therapy_style` (therapist.py lines
147-172), with the two random draws supplied by the oracle. -/
def determine_therapy_style (r : RandOracle) (ctx : SafetyResult)
    (chat_history : List ChatMessage) : TherapyStyle :=
  if ctx.level = .CRISIS then .supportive
  else if ctx.level = .DANGER then .supportive
  else if ctx.level = .WARNING then
    if r.warnChoice then .supportive else .cbt
  else if 5 < chat_history.length then
    [TherapyStyle.supportive, .cbt, .solution_focused, .mindfulness].get r.safeChoice
  else .supportive

/-- Negative-affect words of `_select_response_components`
(therapist.py line 185). -/
def negative_words : List String :=
  ["حزين", "قلق", "خوف", "sad", "anxious", "afraid"]

/-- `TherapistEngine._select_response_components` (therapist.py lines
174-207). -/
def select_response_components (user_message : String) (ctx : SafetyResult)
    (style : TherapyStyle) : List String :=
  let c1 := if ctx.level ≠ .SAFE then ["empathy"] else []
  let c2 :=
    if negative_words.any (fun w => pyIn w (pyLower user_message)) then
      ["validation"]
    else []
  let c3 := if 10 < pyWordCount user_message then ["exploration"] else []
  let c4 :=
    match style with
    | .cbt => ["reframing"]
    | .solution_focused => ["exploration", "hope"]
    | .mindfulness => ["coping"]
    | .supportive => []
  let components := c1 ++ c2 ++ c3 ++ c4
  let components := if components = [] then ["empathy", "exploration"] else components
  (dedupFirst components).take 3

/-! ## main.py -/

/-- The response composer signature: `TherapistEngine.generate_response`
as seen by the orchestrator, which only consumes the `.message` of the
returned `ChatResponse` (main.py lines 144-148 and 247-255). -/
def Composer : Type :=
  String → SafetyResult → List ChatMessage → String

/-- `ChatResponseModel` (main.py lines 51-57). -/
structure ChatResponseModel where
  message : String
  session_id : String
  timestamp : Nat
  is_crisis : Bool
  safety_level : String
  crisis_resources : Option (List String)
deriving DecidableEq, Repr

/-- One request through `chat_endpoint` (main.py lines 92-168) over the
in-memory store, with the composer as an explicit argument so that its
invocation (or absence) is observable. -/
def chat_step (composer : Composer) (msg sid : String) (uid : Option String)
    (now : Nat) (st : InMemStore) : ChatResponseModel × InMemStore :=
  let (_, st1) := inm_get_or_create_session st sid uid now
  let sr := analyze_message msg
  let (_, st2) := inm_store_message st1 sid msg true (.safety sr.metadata) now
  if sr.is_crisis then
    let cr := get_crisis_response sr
    let (_, st3) := inm_store_message st2 sid cr.message false .crisisResponse now
    ({ message := cr.message, session_id := sid, timestamp := now,
       is_crisis := true, safety_level := "critical",
       crisis_resources := some cr.resources }, st3)
  else
    let hist := inm_get_session_history st2 sid 20
    let reply := composer msg sr hist
    let (_, st3) := inm_store_message st2 sid reply false .therapyResponse now
    let st4 := inm_update_session_activity st3 sid now
    ({ message := reply, session_id := sid, timestamp := now,
       is_crisis := false, safety_level := sr.level.value,
       crisis_resources := none }, st4)

/-- The two framed message kinds emitted by the websocket endpoint. -/
inductive WsFrame where
  | crisis (message : String) (resources : List String)
  | response (message : String)
deriving DecidableEq, Repr

/-- One message through `websocket_endpoint` (main.py lines 227-256): the
websocket path classifies, branches on crisis, and does not persist. -/
def ws_step (composer : Composer) (msg sid : String) (st : InMemStore) :
    WsFrame :=
  let sr := analyze_message msg
  if sr.is_crisis then
    let cr := get_crisis_response sr
    .crisis cr.message cr.resources
  else
    let hist := inm_get_session_history st sid 20
    .response (composer msg sr hist)

/-! ## Concrete stores used by the claims -/

/-- The store after appending 150 messages to one session at strictly
increasing timestamps `0, 1, …, 149` (the 150-append scenario of the
spec's testable properties). -/
def scenario_store : InMemStore :=
  (List.range 150).foldl
    (fun st i => (inm_store_message st "s" "m" true .empty i).2)
    { sessions := [], messages := [], nextId := 0 }

/-- The 100 most recent scenario messages (timestamps 50‥149), ascending. -/
def scenario_expected : List ChatMessage :=
  (List.range' 50 100).map
    (fun i => { id := i, session_id := "s", role := .user, content := "m",
                timestamp := i, metadata := .empty })

/-! ## Helper lemmas -/

/-- `findCrisis` finds the first category any of whose keywords occurs in
the message, paired with that category's first occurring keyword. -/
theorem findCrisis_eq (msg : String) (table : List (String × List String)) :
    findCrisis msg table =
      (table.find? (fun p => p.2.any (fun kw => containsKw msg kw))).bind
        (fun p => (p.2.find? (fun kw => containsKw msg kw)).map
          (fun kw => (p.1, kw))) := by
  induction table with
  | nil => rfl
  | cons p rest ih =>
    obtain ⟨cat, kws⟩ := p
    cases hf : kws.find? (fun kw => containsKw msg kw) with
    | some kw =>
      have hany : kws.any (fun kw => containsKw msg kw) = true :=
        List.any_eq_true.2
          ⟨kw, List.mem_of_find?_eq_some hf, List.find?_some hf⟩
      simp [findCrisis, hf, List.find?_cons_of_pos, hany]
    | none =>
      have hany : kws.any (fun kw => containsKw msg kw) = false := by
        rw [List.any_eq_false]
        intro kw hkw
        exact List.find?_eq_none.1 hf kw hkw
      simp [findCrisis, hf, List.find?_cons_of_neg, hany, ih]

theorem lookup_updAssoc_self {α : Type} (m : List (String × α)) (k : String)
    (v : α) : (updAssoc m k v).lookup k = some v := by
  induction m with
  | nil => simp [updAssoc, List.lookup]
  | cons p rest ih =>
    obtain ⟨k', v'⟩ := p
    by_cases h : k' = k
    · subst h; simp [updAssoc, List.lookup]
    · have hb : (k == k') = false := beq_eq_false_iff_ne.2 (Ne.symm h)
      simp [updAssoc, h, List.lookup, hb, ih]

theorem lookup_updAssoc_ne {α : Type} (m : List (String × α)) (k k' : String)
    (v : α) (h : k' ≠ k) : (updAssoc m k v).lookup k' = m.lookup k' := by
  have hb : (k' == k) = false := beq_eq_false_iff_ne.2 h
  induction m with
  | nil => simp [updAssoc, List.lookup, hb]
  | cons p rest ih =>
    obtain ⟨k0, v0⟩ := p
    by_cases h0 : k0 = k
    · subst h0
      simp [updAssoc, List.lookup, hb]
    · simp only [updAssoc, if_neg h0, List.lookup]
      cases hbe : k' == k0 <;> simp [hbe, ih]

theorem lookup_delAssoc_self {α : Type} (m : List (String × α)) (sid : String) :
    (delAssoc m sid).lookup sid = none := by
  induction m with
  | nil => rfl
  | cons p rest ih =>
    obtain ⟨k, v⟩ := p
    by_cases h : k = sid
    · simp [delAssoc, h, ih]
    · have hb : (sid == k) = false := beq_eq_false_iff_ne.2 (Ne.symm h)
      simp [delAssoc, h, List.lookup, hb, ih]

theorem lookup_delAssoc_ne {α : Type} (m : List (String × α)) (sid k : String)
    (h : k ≠ sid) : (delAssoc m sid).lookup k = m.lookup k := by
  induction m with
  | nil => rfl
  | cons p rest ih =>
    obtain ⟨k0, v0⟩ := p
    by_cases h0 : k0 = sid
    · subst h0
      have hb : (k == k0) = false := beq_eq_false_iff_ne.2 h
      simp [delAssoc, List.lookup, hb, ih]
    · simp only [delAssoc, if_neg h0, List.lookup]
      cases hbe : k == k0 <;> simp [hbe, ih]

theorem sortByTimestamp_perm (l : List ChatMessage) :
    List.Perm (sortByTimestamp l) l :=
  List.perm_insertionSort tsLe l

theorem sortByTimestamp_sorted (l : List ChatMessage) :
    List.Sorted tsLe (sortByTimestamp l) :=
  List.sorted_insertionSort tsLe l

/-! ## Claims -/

/-- C1: for every message that contains at least one configured crisis
keyword (case-insensitive substring match), `classify` returns a verdict
with `isCrisis=true`, `level=CRISIS`, `confidence=0.95`, and category
equal to the first category, in the fixed declaration order of the crisis
table, that has any matching keyword in the message. -/
theorem c1_crisis_classification (msg : String)
    (h : ∃ p ∈ crisis_keywords, ∃ kw ∈ p.2, containsKw msg kw = true) :
    (analyze_message msg).is_crisis = true ∧
    (analyze_message msg).level = .CRISIS ∧
    (analyze_message msg).confidence = 95 / 100 ∧
    ∃ cat,
      (crisis_keywords.find?
          (fun p => p.2.any (fun kw => containsKw msg kw))).map Prod.fst
        = some cat ∧
      (analyze_message msg).metadata = .crisis cat := by
  obtain ⟨p0, hp0, kw0, hkw0, hc0⟩ := h
  have hsome : (crisis_keywords.find?
      (fun p => p.2.any (fun kw => containsKw msg kw))).isSome := by
    rw [List.find?_isSome]
    exact ⟨p0, hp0, List.any_eq_true.2 ⟨kw0, hkw0, hc0⟩⟩
  obtain ⟨q, hq⟩ := Option.isSome_iff_exists.1 hsome
  have hany : q.2.any (fun kw => containsKw msg kw) = true := by
    simpa using List.find?_some hq
  obtain ⟨kw, hkwmem, hkwc⟩ := List.any_eq_true.1 hany
  have hinner : (q.2.find? (fun kw => containsKw msg kw)).isSome := by
    rw [List.find?_isSome]
    exact ⟨kw, hkwmem, hkwc⟩
  obtain ⟨kw1, hkw1⟩ := Option.isSome_iff_exists.1 hinner
  have hfc : findCrisis msg crisis_keywords = some (q.1, kw1) := by
    rw [findCrisis_eq, hq]
    simp [hkw1]
  unfold analyze_message
  rw [hfc]
  exact ⟨rfl, rfl, rfl, q.1, by rw [hq]; rfl, rfl⟩

/-- Witness for C1 at the concrete crisis message `"I want to DIE"`
(case-insensitive match of the suicide keyword `"want to die"`). -/
theorem c1_crisis_classification_witness :
    (∃ p ∈ crisis_keywords, ∃ kw ∈ p.2,
        containsKw "I want to DIE" kw = true) ∧
    ((analyze_message "I want to DIE").is_crisis = true ∧
     (analyze_message "I want to DIE").level = .CRISIS ∧
     (analyze_message "I want to DIE").confidence = 95 / 100 ∧
     ∃ cat,
       (crisis_keywords.find?
           (fun p => p.2.any
             (fun kw => containsKw "I want to DIE" kw))).map Prod.fst
         = some cat ∧
       (analyze_message "I want to DIE").metadata = .crisis cat) :=
  ⟨by decide, c1_crisis_classification "I want to DIE" (by decide)⟩

/-- C3 counterexample: `"suicide kill myself"` contains two keywords of
the matched category `"suicide"`, but the verdict's `keywords` is only
`["suicide"]` — the second matching keyword `"kill myself"` is dropped
because the inner loop breaks at the first match. -/
theorem c3_matched_terms_counterexample :
    (∃ kws, ("suicide", kws) ∈ crisis_keywords ∧ "kill myself" ∈ kws) ∧
    containsKw "suicide kill myself" "kill myself" = true ∧
    (analyze_message "suicide kill myself").metadata = .crisis "suicide" ∧
    "kill myself" ∉ (analyze_message "suicide kill myself").keywords := by
  refine ⟨⟨(crisis_keywords.get ⟨0, by decide⟩).2, by decide, by decide⟩,
    by decide, by decide, by decide⟩

/-- C3, amended: on a crisis match, `matchedTerms` is the singleton list
holding only the first keyword, in the category's declaration order, of
the first matching category that occurs in the message — not all matching
keywords of that category. -/
theorem c3_matched_terms_amended (msg cat kw : String)
    (h : findCrisis msg crisis_keywords = some (cat, kw)) :
    (analyze_message msg).keywords = [kw] ∧
    ∃ kws,
      crisis_keywords.find?
          (fun p => p.2.any (fun k => containsKw msg k)) = some (cat, kws) ∧
      kws.find? (fun k => containsKw msg k) = some kw := by
  constructor
  · unfold analyze_message
    rw [h]
  · rw [findCrisis_eq] at h
    obtain ⟨q, hq, hmap⟩ := Option.bind_eq_some.1 h
    obtain ⟨kw1, hkw1, heq⟩ := Option.map_eq_some'.1 hmap
    injection heq with h1 h2
    subst h1
    subst h2
    exact ⟨q.2, by rw [hq], hkw1⟩

/-- Witness for C3's amended theorem at `"suicide kill myself"`. -/
theorem c3_matched_terms_witness :
    findCrisis "suicide kill myself" crisis_keywords
      = some ("suicide", "suicide") ∧
    ((analyze_message "suicide kill myself").keywords = ["suicide"] ∧
     ∃ kws,
       crisis_keywords.find?
           (fun p => p.2.any
             (fun k => containsKw "suicide kill myself" k))
         = some ("suicide", kws) ∧
       kws.find? (fun k => containsKw "suicide kill myself" k)
         = some "suicide") :=
  ⟨by decide,
   c3_matched_terms_amended "suicide kill myself" "suicide" "suicide"
     (by decide)⟩

/-- C5: for every message containing zero crisis keywords and exactly `k`
warning-pattern hits, `classify` returns `isCrisis=false` with
`level=DANGER` iff `k ≥ 3`, `WARNING` iff `1 ≤ k ≤ 2`, `SAFE` iff `k = 0`,
and `confidence = min(0.9, 0.3·k)`; the empty message yields `SAFE` with
confidence `0`. -/
theorem c5_warning_scoring (msg : String)
    (h : ∀ p ∈ crisis_keywords, ∀ kw ∈ p.2, containsKw msg kw = false) :
    (analyze_message msg).is_crisis = false ∧
    ((analyze_message msg).level = .DANGER ↔ 3 ≤ (warningHits msg).length) ∧
    ((analyze_message msg).level = .WARNING ↔
        1 ≤ (warningHits msg).length ∧ (warningHits msg).length ≤ 2) ∧
    ((analyze_message msg).level = .SAFE ↔ (warningHits msg).length = 0) ∧
    (analyze_message msg).confidence
      = min (9 / 10 : ℚ) (((warningHits msg).length : ℚ) * (3 / 10)) ∧
    (analyze_message "").level = .SAFE ∧
    (analyze_message "").confidence = 0 := by
  have hfind : crisis_keywords.find?
      (fun p => p.2.any (fun kw => containsKw msg kw)) = none := by
    rw [List.find?_eq_none]
    intro p hp
    simp only [List.any_eq_true, not_exists]
    intro kw
    rintro ⟨hkw, hc⟩
    rw [h p hp kw hkw] at hc
    exact Bool.false_ne_true hc
  have hfc : findCrisis msg crisis_keywords = none := by
    rw [findCrisis_eq, hfind]; rfl
  have hfc0 : findCrisis "" crisis_keywords = none := by decide
  have hw0 : warningHits "" = [] := by decide
  have hempty : (analyze_message "").level = .SAFE ∧
      (analyze_message "").confidence = 0 := by
    unfold analyze_message
    rw [hfc0]
    dsimp only
    rw [hw0]
    refine ⟨by norm_num, ?_⟩
    show min (9 / 10 : ℚ) ((([] : List String).length : ℚ) * (3 / 10)) = 0
    norm_num
  unfold analyze_message
  rw [hfc]
  refine ⟨rfl, ?_, ?_, ?_, rfl, hempty.1, hempty.2⟩ <;>
    · dsimp only
      split_ifs <;> constructor <;> intro hx <;>
        first
          | omega
          | rfl
          | (exact absurd hx (by decide))

/-- Witness for C5 at `"very sad"`: one warning hit, level `WARNING`,
confidence `0.3`. -/
theorem c5_warning_scoring_witness :
    (∀ p ∈ crisis_keywords, ∀ kw ∈ p.2,
        containsKw "very sad" kw = false) ∧
    ((analyze_message "very sad").is_crisis = false ∧
     ((analyze_message "very sad").level = .DANGER
        ↔ 3 ≤ (warningHits "very sad").length) ∧
     ((analyze_message "very sad").level = .WARNING
        ↔ 1 ≤ (warningHits "very sad").length
            ∧ (warningHits "very sad").length ≤ 2) ∧
     ((analyze_message "very sad").level = .SAFE
        ↔ (warningHits "very sad").length = 0) ∧
     (analyze_message "very sad").confidence
       = min (9 / 10 : ℚ) (((warningHits "very sad").length : ℚ) * (3 / 10)) ∧
     (analyze_message "").level = .SAFE ∧
     (analyze_message "").confidence = 0) :=
  ⟨by decide, c5_warning_scoring "very sad" (by decide)⟩

/-- C2: for every incoming message whose verdict has `isCrisis=true`, both
the chat endpoint and the websocket endpoint return the resolved crisis
bundle and never invoke the response composer: the entire outcome
(response and final store) is independent of the composer argument. -/
theorem c2_crisis_short_circuit (f g : Composer) (msg sid : String)
    (uid : Option String) (now : Nat) (st : InMemStore)
    (h : (analyze_message msg).is_crisis = true) :
    chat_step f msg sid uid now st = chat_step g msg sid uid now st ∧
    (chat_step f msg sid uid now st).1 =
      { message := (get_crisis_response (analyze_message msg)).message,
        session_id := sid, timestamp := now, is_crisis := true,
        safety_level := "critical",
        crisis_resources :=
          some (get_crisis_response (analyze_message msg)).resources } ∧
    ws_step f msg sid st = ws_step g msg sid st ∧
    ws_step f msg sid st =
      .crisis (get_crisis_response (analyze_message msg)).message
        (get_crisis_response (analyze_message msg)).resources := by
  unfold chat_step ws_step
  simp [h]

def composer_a : Composer := fun _ _ _ => "reply a"

def composer_b : Composer := fun _ _ _ => "reply b"

def c2_store : InMemStore := { sessions := [], messages := [], nextId := 0 }

/-- Witness for C2 at the crisis message `"أريد أن أموت"` with two composers
that would produce different replies. -/
theorem c2_crisis_short_circuit_witness :
    (analyze_message "أريد أن أموت").is_crisis = true ∧
    (chat_step composer_a "أريد أن أموت" "s" none 7 c2_store
        = chat_step composer_b "أريد أن أموت" "s" none 7 c2_store ∧
     (chat_step composer_a "أريد أن أموت" "s" none 7 c2_store).1 =
       { message := (get_crisis_response (analyze_message "أريد أن أموت")).message,
         session_id := "s", timestamp := 7, is_crisis := true,
         safety_level := "critical",
         crisis_resources :=
           some (get_crisis_response (analyze_message "أريد أن أموت")).resources } ∧
     ws_step composer_a "أريد أن أموت" "s" c2_store
        = ws_step composer_b "أريد أن أموت" "s" c2_store ∧
     ws_step composer_a "أريد أن أموت" "s" c2_store =
       .crisis (get_crisis_response (analyze_message "أريد أن أموت")).message
         (get_crisis_response (analyze_message "أريد أن أموت")).resources) :=
  ⟨by decide,
   c2_crisis_short_circuit composer_a composer_b "أريد أن أموت" "s" none 7
     c2_store (by decide)⟩

/-- C9: for every SAFE user message of more than 10 words on a session
whose history has at most 5 entries, the composer selects style SUPPORTIVE
and its component list includes `"exploration"` and never `"empathy"`,
whatever the random draws. -/
theorem c9_safe_new_session (r : RandOracle) (msg : String)
    (ctx : SafetyResult) (hist : List ChatMessage)
    (h1 : ctx.level = .SAFE) (h2 : 10 < pyWordCount msg)
    (h3 : hist.length ≤ 5) :
    determine_therapy_style r ctx hist = .supportive ∧
    "exploration" ∈ select_response_components msg ctx .supportive ∧
    "empathy" ∉ select_response_components msg ctx .supportive := by
  have h4 : ¬ 5 < hist.length := by omega
  have hstyle : determine_therapy_style r ctx hist = .supportive := by
    unfold determine_therapy_style
    rw [h1]
    simp [h4]
  have hsel : select_response_components msg ctx .supportive
      = if negative_words.any (fun w => pyIn w (pyLower msg)) then
          ["validation", "exploration"]
        else ["exploration"] := by
    unfold select_response_components
    rw [h1]
    by_cases hneg : negative_words.any (fun w => pyIn w (pyLower msg)) = true
    · simp [hneg, h2, dedupFirst]
    · simp [hneg, h2, dedupFirst]
  refine ⟨hstyle, ?_, ?_⟩ <;>
    · rw [hsel]
      by_cases hneg : negative_words.any (fun w => pyIn w (pyLower msg)) = true
      · simp [hneg]
      · simp [hneg]

/-- Witness for C9: a 15-word SAFE message on an empty history. -/
theorem c9_safe_new_session_witness :
    (analyze_message "hello").level = .SAFE ∧
    10 < pyWordCount
      "it has been a very long and difficult week for me at work these days" ∧
    ([] : List ChatMessage).length ≤ 5 ∧
    (determine_therapy_style { warnChoice := true, safeChoice := 2 }
        (analyze_message "hello") [] = .supportive ∧
     "exploration" ∈ select_response_components
       "it has been a very long and difficult week for me at work these days"
       (analyze_message "hello") .supportive ∧
     "empathy" ∉ select_response_components
       "it has been a very long and difficult week for me at work these days"
       (analyze_message "hello") .supportive) :=
  ⟨by decide, by decide, by decide,
   c9_safe_new_session { warnChoice := true, safeChoice := 2 }
     "it has been a very long and difficult week for me at work these days"
     (analyze_message "hello") [] (by decide) (by decide) (by decide)⟩

/-- A crisis verdict whose metadata has no `crisis_type` key. -/
def verdict_without_category : SafetyResult :=
  { is_crisis := true, level := .CRISIS, keywords := [],
    confidence := 95 / 100, metadata := .analysis (additional_analysis "") }

/-- C4 counterexample: for a verdict whose category is absent,
`get_crisis_response` returns the suicide bundle (because the missing key
defaults to `"suicide"`), not the default generic-hotline bundle the claim
requires. -/
theorem c4_bundle_counterexample :
    crisis_resources.lookup "suicide"
      = some ((get_crisis_response verdict_without_category).message,
              (get_crisis_response verdict_without_category).resources) ∧
    get_crisis_response verdict_without_category ≠ default_crisis_response := by
  decide

/-- C4, amended: `get_crisis_response` is a pure total function of the
verdict; a mapped category returns that category's bundle, a present but
unmapped category returns the default bundle, and an absent category is
treated as `"suicide"` (so it returns the suicide bundle, not the default
one). -/
theorem c4_bundle_resolution (r : SafetyResult) :
    (∀ ct info, r.metadata = .crisis ct →
        crisis_resources.lookup ct = some info →
        get_crisis_response r =
          { message := info.1, resources := info.2,
            emergency_contacts := some ["122", "123", "180"],
            immediate_actions := none }) ∧
    (∀ ct, r.metadata = .crisis ct →
        crisis_resources.lookup ct = none →
        get_crisis_response r = default_crisis_response) ∧
    (∀ a, r.metadata = .analysis a →
        get_crisis_response r =
          get_crisis_response
            { is_crisis := true, level := .CRISIS, keywords := [],
              confidence := 95 / 100, metadata := .crisis "suicide" }) := by
  refine ⟨?_, ?_, ?_⟩
  · intro ct info hmeta hlook
    unfold get_crisis_response
    rw [hmeta]
    dsimp only
    rw [hlook]
  · intro ct hmeta hlook
    unfold get_crisis_response
    rw [hmeta]
    dsimp only
    rw [hlook]
  · intro a hmeta
    unfold get_crisis_response
    rw [hmeta]

/-- A crisis verdict whose category is present but unmapped in the
bundle table. -/
def verdict_emergency_health : SafetyResult :=
  { is_crisis := true, level := .CRISIS, keywords := ["heart attack"],
    confidence := 95 / 100, metadata := .crisis "emergency_health" }

/-- Witness for C4's amended theorem: the `"emergency_health"` category is
not in the bundle table, so the default bundle is returned. -/
theorem c4_bundle_resolution_witness :
    verdict_emergency_health.metadata = .crisis "emergency_health" ∧
    crisis_resources.lookup "emergency_health" = none ∧
    get_crisis_response verdict_emergency_health = default_crisis_response :=
  ⟨rfl, by decide,
   (c4_bundle_resolution verdict_emergency_health).2.1 "emergency_health"
     rfl (by decide)⟩

/-- A session whose last activity was at time 0, with 5 messages counted. -/
def stale_session : UserSession :=
  { session_id := "s", user_id := none, created_at := 0, last_active := 0,
    message_count := 5, settings := default_settings }

/-- An in-memory (fallback) store holding only the stale session. -/
def stale_inm_store : InMemStore :=
  { sessions := [("s", stale_session)], messages := [], nextId := 0 }

/-- C7 counterexample: in the process-local fallback store, a session
untouched for more than 24 hours (last active 0, queried at 100000 s) is
still returned by `get_or_create_session` with its old `message_count = 5`
— not a fresh session with `messageCount = 0` as the claim requires of
both backends. -/
theorem c7_ttl_counterexample :
    stale_session.last_active + sessionTTL < 100000 ∧
    (inm_get_or_create_session stale_inm_store "s" none 100000).1.message_count
      = 5 := by decide

/-- C7, amended: only the Redis backend expires sessions — a session last
saved more than 24 hours ago is treated as absent and `get_or_create`
returns a fresh session (`messageCount = 0`); the process-local fallback
never expires sessions, so `get_or_create` returns the stored session
unchanged no matter how much time has passed. -/
theorem c7_ttl_amended :
    (∀ (st : RedisStore) (s : UserSession) (t : Nat) (uid : Option String)
        (now : Nat), t + sessionTTL < now →
        (redis_get_or_create_session (redis_save_session st s t)
            s.session_id uid now).1 = newSession s.session_id uid now) ∧
    (∀ (st : InMemStore) (sid : String) (uid : Option String) (now : Nat)
        (s : UserSession), st.sessions.lookup sid = some s →
        (inm_get_or_create_session st sid uid now).1 = s) := by
  constructor
  · intro st s t uid now h
    have hget : redis_get_session (redis_save_session st s t)
        s.session_id now = none := by
      unfold redis_get_session redis_save_session
      dsimp only
      rw [lookup_updAssoc_self]
      exact if_neg (by omega)
    unfold redis_get_or_create_session
    rw [hget]
  · intro st sid uid now s h
    unfold inm_get_or_create_session inm_get_session
    rw [h]

/-- Witness for C7's amended theorem. -/
theorem c7_ttl_witness :
    (0 : Nat) + sessionTTL < 90000 ∧
    stale_inm_store.sessions.lookup "s" = some stale_session ∧
    ((redis_get_or_create_session
        (redis_save_session { sessions := [], messages := [], nextId := 0 }
          stale_session 0) "s" none 90000).1 = newSession "s" none 90000 ∧
     (inm_get_or_create_session stale_inm_store "s" none 90000).1
        = stale_session) :=
  ⟨by decide, by decide,
   c7_ttl_amended.1 { sessions := [], messages := [], nextId := 0 }
     stale_session 0 none 90000 (by decide),
   c7_ttl_amended.2 stale_inm_store "s" none 90000 stale_session (by decide)⟩

/-- C8 counterexample: deleting an id for which no session exists still
returns `true` — not `false` as the claim requires. -/
theorem c8_delete_counterexample :
    inm_get_session { sessions := [], messages := [], nextId := 0 } "x" = none ∧
    (inm_delete_session { sessions := [], messages := [], nextId := 0 } "x").1
      = true := by decide

/-- C8, amended: in both backends, `delete` removes the session and its
full message log atomically and leaves every other id untouched, but its
boolean result is `true` unconditionally — it does not report whether a
session existed (`false` could only arise from a backend exception). -/
theorem c8_delete_semantics (stM : InMemStore) (stR : RedisStore)
    (sid : String) :
    (inm_delete_session stM sid).1 = true ∧
    (inm_delete_session stM sid).2.sessions.lookup sid = none ∧
    (inm_delete_session stM sid).2.messages.lookup sid = none ∧
    (∀ k, k ≠ sid →
        (inm_delete_session stM sid).2.sessions.lookup k
            = stM.sessions.lookup k ∧
        (inm_delete_session stM sid).2.messages.lookup k
            = stM.messages.lookup k) ∧
    (redis_delete_session stR sid).1 = true ∧
    (redis_delete_session stR sid).2.sessions.lookup sid = none ∧
    (redis_delete_session stR sid).2.messages.lookup sid = none ∧
    (∀ k, k ≠ sid →
        (redis_delete_session stR sid).2.sessions.lookup k
            = stR.sessions.lookup k ∧
        (redis_delete_session stR sid).2.messages.lookup k
            = stR.messages.lookup k) :=
  ⟨rfl, lookup_delAssoc_self _ _, lookup_delAssoc_self _ _,
   fun _ hk => ⟨lookup_delAssoc_ne _ _ _ hk, lookup_delAssoc_ne _ _ _ hk⟩,
   rfl, lookup_delAssoc_self _ _, lookup_delAssoc_self _ _,
   fun _ hk => ⟨lookup_delAssoc_ne _ _ _ hk, lookup_delAssoc_ne _ _ _ hk⟩⟩

/-- A store with one session and one logged message, used to witness C8. -/
def c8_store : InMemStore :=
  { sessions := [("s", newSession "s" none 0), ("t", newSession "t" none 1)],
    messages := [("s", [{ id := 0, session_id := "s", role := .user,
                          content := "hi", timestamp := 0,
                          metadata := .empty }])],
    nextId := 1 }

/-- Witness for C8's amended theorem on a populated store. -/
theorem c8_delete_semantics_witness :
    ("t" : String) ≠ "s" ∧
    ((inm_delete_session c8_store "s").1 = true ∧
     (inm_delete_session c8_store "s").2.sessions.lookup "s" = none ∧
     (inm_delete_session c8_store "s").2.messages.lookup "s" = none ∧
     (inm_delete_session c8_store "s").2.sessions.lookup "t"
        = c8_store.sessions.lookup "t") :=
  ⟨by decide,
   (c8_delete_semantics c8_store { sessions := [], messages := [], nextId := 0 }
      "s").1,
   (c8_delete_semantics c8_store { sessions := [], messages := [], nextId := 0 }
      "s").2.1,
   (c8_delete_semantics c8_store { sessions := [], messages := [], nextId := 0 }
      "s").2.2.1,
   ((c8_delete_semantics c8_store { sessions := [], messages := [], nextId := 0 }
      "s").2.2.2.1 "t" (by decide)).1⟩

/-- `store_message` leaves the messages map updated at exactly the target
session: the new message prepended and the log trimmed to 100 (in-memory
backend; the session-activity update never touches the messages map). -/
theorem inm_store_message_messages (st : InMemStore) (sid content : String)
    (is_user : Bool) (meta : MsgMeta) (now : Nat) :
    (inm_store_message st sid content is_user meta now).2.messages
      = updAssoc st.messages sid
          ((({ id := st.nextId, session_id := sid,
               role := if is_user then .user else .assistant,
               content := content, timestamp := now, metadata := meta } :
             ChatMessage) :: ((st.messages.lookup sid).getD [])).take 100) := by
  unfold inm_store_message
  dsimp only
  split <;> rfl

/-- Redis-backend analogue of `inm_store_message_messages`. -/
theorem redis_store_message_messages (st : RedisStore) (sid content : String)
    (is_user : Bool) (meta : MsgMeta) (now : Nat) :
    (redis_store_message st sid content is_user meta now).2.messages
      = updAssoc st.messages sid
          ((({ id := st.nextId, session_id := sid,
               role := if is_user then .user else .assistant,
               content := content, timestamp := now, metadata := meta } :
             ChatMessage) :: ((st.messages.lookup sid).getD [])).take 100) := by
  unfold redis_store_message
  dsimp only
  split <;> rfl

/-- C6 counterexample: with `limit = 0` the Redis history path runs
`LRANGE key 0 -1` and returns the entire log — two messages instead of
the zero ("up to limit") the claim requires for every limit. -/
theorem c6_history_counterexample :
    (redis_get_session_history
        (redis_store_message
          (redis_store_message { sessions := [], messages := [], nextId := 0 }
            "s" "a" true .empty 0).2
          "s" "b" true .empty 1).2
        "s" 0).length = 2 := by decide

/-- C6, amended: every append trims the session's log to its 100 most
recent entries (both backends); history returns the up-to-`limit` most
recent entries of the log in ascending timestamp order — for every limit
on the in-memory backend, and for every `limit ≥ 1` on the Redis backend
(at `limit = 0` the Redis path returns the whole log via `LRANGE 0 -1`);
after appending 150 messages at increasing times to one session,
`history(sessionId, 100)` returns exactly the 100 most recent and none of
the earliest 50. -/
theorem c6_bounded_history :
    (∀ (st : InMemStore) (sid content : String) (is_user : Bool)
        (meta : MsgMeta) (now : Nat),
      ((inm_store_message st sid content is_user meta now).2.messages.lookup
          sid).getD []
        = ((({ id := st.nextId, session_id := sid,
               role := if is_user then .user else .assistant,
               content := content, timestamp := now, metadata := meta } :
             ChatMessage) :: ((st.messages.lookup sid).getD [])).take 100) ∧
      (((inm_store_message st sid content is_user meta now).2.messages.lookup
          sid).getD []).length ≤ 100) ∧
    (∀ (st : RedisStore) (sid content : String) (is_user : Bool)
        (meta : MsgMeta) (now : Nat),
      ((redis_store_message st sid content is_user meta now).2.messages.lookup
          sid).getD []
        = ((({ id := st.nextId, session_id := sid,
               role := if is_user then .user else .assistant,
               content := content, timestamp := now, metadata := meta } :
             ChatMessage) :: ((st.messages.lookup sid).getD [])).take 100) ∧
      (((redis_store_message st sid content is_user meta now).2.messages.lookup
          sid).getD []).length ≤ 100) ∧
    (∀ (st : InMemStore) (sid : String) (limit : Nat),
      List.Sorted tsLe (inm_get_session_history st sid limit) ∧
      List.Perm (inm_get_session_history st sid limit)
        (((st.messages.lookup sid).getD []).take limit)) ∧
    (∀ (st : RedisStore) (sid : String) (limit : Nat), 1 ≤ limit →
      List.Sorted tsLe (redis_get_session_history st sid limit) ∧
      List.Perm (redis_get_session_history st sid limit)
        (((st.messages.lookup sid).getD []).take limit)) ∧
    inm_get_session_history scenario_store "s" 100 = scenario_expected := by
  refine ⟨?_, ?_, ?_, ?_, by decide⟩
  · intro st sid content is_user meta now
    rw [inm_store_message_messages, lookup_updAssoc_self]
    exact ⟨rfl, List.length_take_le 100 _⟩
  · intro st sid content is_user meta now
    rw [redis_store_message_messages, lookup_updAssoc_self]
    exact ⟨rfl, List.length_take_le 100 _⟩
  · intro st sid limit
    exact ⟨sortByTimestamp_sorted _, sortByTimestamp_perm _⟩
  · intro st sid limit hlim
    unfold redis_get_session_history
    dsimp only
    rw [if_neg (show ¬ limit = 0 by omega)]
    exact ⟨sortByTimestamp_sorted _, sortByTimestamp_perm _⟩

/-- Witness for C6's amended theorem at concrete stores and `limit = 1`. -/
theorem c6_bounded_history_witness :
    (1 : Nat) ≤ 1 ∧
    (((inm_store_message { sessions := [], messages := [], nextId := 0 }
          "s" "hi" true .empty 4).2.messages.lookup "s").getD []
        = [{ id := 0, session_id := "s", role := .user, content := "hi",
             timestamp := 4, metadata := .empty }] ∧
     (List.Sorted tsLe (redis_get_session_history
          { sessions := [], messages := [], nextId := 0 } "s" 1) ∧
      List.Perm (redis_get_session_history
          { sessions := [], messages := [], nextId := 0 } "s" 1)
        (((({ sessions := [], messages := [], nextId := 0 } :
            RedisStore).messages.lookup "s").getD []).take 1))) :=
  ⟨by decide,
   (c6_bounded_history.1 { sessions := [], messages := [], nextId := 0 }
      "s" "hi" true .empty 4).1,
   c6_bounded_history.2.2.2.1 { sessions := [], messages := [], nextId := 0 }
     "s" 1 (by decide)⟩

/-- C10: appending to a session id for which no session exists does not
fail — the message is still stored in that id's log under a fresh message
id, no session is created, and every existing session is left unchanged
(both backends; the freshness hypothesis is the id-supply invariant). -/
theorem c10_orphan_append (stM : InMemStore) (stR : RedisStore)
    (sid content : String) (is_user : Bool) (meta : MsgMeta) (now : Nat)
    (h1 : inm_get_session stM sid = none)
    (h2 : redis_get_session stR sid now = none)
    (h3 : ∀ p ∈ stM.messages, ∀ m ∈ p.2, m.id < stM.nextId) :
    (inm_store_message stM sid content is_user meta now).1 = stM.nextId ∧
    (inm_store_message stM sid content is_user meta now).2.messages.lookup sid
      = some ((({ id := stM.nextId, session_id := sid,
                  role := if is_user then .user else .assistant,
                  content := content, timestamp := now, metadata := meta } :
                ChatMessage) :: ((stM.messages.lookup sid).getD [])).take 100) ∧
    (inm_store_message stM sid content is_user meta now).2.sessions
      = stM.sessions ∧
    (∀ p ∈ stM.messages, ∀ m ∈ p.2,
        m.id ≠ (inm_store_message stM sid content is_user meta now).1) ∧
    (redis_store_message stR sid content is_user meta now).1 = stR.nextId ∧
    (redis_store_message stR sid content is_user meta now).2.sessions
      = stR.sessions := by
  have keyM : inm_store_message stM sid content is_user meta now
      = (stM.nextId,
         { stM with
            messages := updAssoc stM.messages sid
              ((({ id := stM.nextId, session_id := sid,
                   role := if is_user then .user else .assistant,
                   content := content, timestamp := now, metadata := meta } :
                 ChatMessage) :: ((stM.messages.lookup sid).getD [])).take 100),
            nextId := stM.nextId + 1 }) := by
    unfold inm_store_message
    dsimp only
    split
    · next s heq => exact absurd (h1.symm.trans heq) (by simp)
    · rfl
  have keyR : redis_store_message stR sid content is_user meta now
      = (stR.nextId,
         { stR with
            messages := updAssoc stR.messages sid
              ((({ id := stR.nextId, session_id := sid,
                   role := if is_user then .user else .assistant,
                   content := content, timestamp := now, metadata := meta } :
                 ChatMessage) :: ((stR.messages.lookup sid).getD [])).take 100),
            nextId := stR.nextId + 1 }) := by
    unfold redis_store_message
    dsimp only
    split
    · next s heq => exact absurd (h2.symm.trans heq) (by simp)
    · rfl
  refine ⟨by rw [keyM], ?_, by rw [keyM], ?_, by rw [keyR], by rw [keyR]⟩
  · rw [keyM]
    exact lookup_updAssoc_self _ _ _
  · intro p hp m hm
    rw [keyM]
    exact Nat.ne_of_lt (h3 p hp m hm)

/-- Witness for C10 on empty stores (no session exists for `"s"`). -/
theorem c10_orphan_append_witness :
    inm_get_session { sessions := [], messages := [], nextId := 3 } "s"
      = none ∧
    redis_get_session { sessions := [], messages := [], nextId := 3 } "s" 9
      = none ∧
    (∀ p ∈ ({ sessions := [], messages := [], nextId := 3 } :
        InMemStore).messages, ∀ m ∈ p.2, m.id < 3) ∧
    ((inm_store_message { sessions := [], messages := [], nextId := 3 }
        "s" "lost" true .empty 9).1 = 3 ∧
     (inm_store_message { sessions := [], messages := [], nextId := 3 }
        "s" "lost" true .empty 9).2.messages.lookup "s"
       = some [{ id := 3, session_id := "s", role := .user,
                 content := "lost", timestamp := 9, metadata := .empty }] ∧
     (inm_store_message { sessions := [], messages := [], nextId := 3 }
        "s" "lost" true .empty 9).2.sessions = [] ∧
     (redis_store_message { sessions := [], messages := [], nextId := 3 }
        "s" "lost" true .empty 9).2.sessions = []) := by
  have h := c10_orphan_append
    { sessions := [], messages := [], nextId := 3 }
    { sessions := [], messages := [], nextId := 3 }
    "s" "lost" true .empty 9 (by decide) (by decide) (by decide)
  exact ⟨by decide, by decide, by decide, h.1, h.2.1, h.2.2.1, h.2.2.2.2.2⟩

end Therabot
